import Mathlib

/-!
Verification of the TrendRadar report orchestration and notification
dispatch engine (`trendradar/__main__.py` and
`trendradar/crawler/crypto_fetcher.py`) against its natural-language
specification.

The Python source is shallowly embedded: pure decision functions become
Lean functions, the orchestrator's effectful control flow becomes a pure
function returning a trace of the externally visible effects (which
notification sends were attempted, with which report type, and whether a
push was recorded), and external collaborators (the push-window manager's
clock queries, the per-channel dispatch outcomes, the history store) are
inputs to those functions.
-/

namespace TrendRadar

/-! ## Data model

`MatchStat` embeds one entry of the `stats` list produced by
`count_frequency`; only `group_key` and `count` are observable to the
code under verification (`stat["count"]`). `NewTitles` embeds the
`new_titles` dict `{source_id: {title: ...}}`; only the per-source title
multiplicity matters (`len(titles) > 0`), so each source carries its list
of titles. -/

structure MatchStat where
  group_key : String
  count : Nat
  deriving Repr, DecidableEq

/-- A new-titles mapping: one entry per source id, carrying that source's
list of newly observed titles (the values of the Python dict). -/
abbrev NewTitles : Type := List (String × List String)

/-! ## ContentValidityGate: `NewsAnalyzer._has_valid_content` -/

/-- Embedding of `NewsAnalyzer._has_valid_content` (lines 213-233 of
`trendradar/__main__.py`).  `reportMode` is `self.report_mode`;
`newTitles` is the optional `new_titles` argument (`None` embeds as
`none`).  The Python truthiness test `bool(new_titles and any(...))` is
false for `None` and for an empty dict, and otherwise checks that some
source has a nonempty title list. -/
def hasValidContent (reportMode : String) (stats : List MatchStat)
    (newTitles : Option NewTitles) : Bool :=
  if reportMode = "incremental" then
    let hasNewTitles :=
      match newTitles with
      | none => false
      | some m => !m.isEmpty && m.any (fun p => decide (0 < p.2.length))
    let hasMatchedNews := stats.any (fun stat => decide (0 < stat.count))
    hasNewTitles && hasMatchedNews
  else if reportMode = "current" then
    stats.any (fun stat => decide (0 < stat.count))
  else
    let hasMatchedNews := stats.any (fun stat => decide (0 < stat.count))
    let hasNewNews :=
      match newTitles with
      | none => false
      | some m => !m.isEmpty && m.any (fun p => decide (0 < p.2.length))
    hasMatchedNews || hasNewNews

/-- Specification-side predicate (from the spec's words, for the
refinement statement of claim C1): the new-title set contains at least
one source with at least one title. -/
def specHasNewTitles (newTitles : Option NewTitles) : Bool :=
  match newTitles with
  | none => false
  | some m => m.any (fun p => decide (0 < p.2.length))

/-- Specification-side predicate (from the spec's words): at least one
MatchStat has `count > 0`. -/
def specHasMatched (stats : List MatchStat) : Bool :=
  stats.any (fun stat => decide (0 < stat.count))

/-! ## ReportModeController: `NewsAnalyzer.MODE_STRATEGIES` and
`NewsAnalyzer._get_mode_strategy` -/

structure ModeStrategy where
  mode_name : String
  description : String
  realtime_report_type : String
  summary_report_type : String
  should_send_realtime : Bool
  should_generate_summary : Bool
  summary_mode : String
  deriving Repr, DecidableEq

/-- The `"incremental"` entry of `NewsAnalyzer.MODE_STRATEGIES`. -/
def incrementalStrategy : ModeStrategy :=
  { mode_name := "增量模式"
  , description := "增量模式（只关注新增新闻，无新增时不推送）"
  , realtime_report_type := "实时增量"
  , summary_report_type := "当日汇总"
  , should_send_realtime := true
  , should_generate_summary := true
  , summary_mode := "daily" }

/-- The `"current"` entry of `NewsAnalyzer.MODE_STRATEGIES`. -/
def currentStrategy : ModeStrategy :=
  { mode_name := "当前榜单模式"
  , description := "当前榜单模式（当前榜单匹配新闻 + 新增新闻区域 + 按时推送）"
  , realtime_report_type := "实时当前榜单"
  , summary_report_type := "当前榜单汇总"
  , should_send_realtime := true
  , should_generate_summary := true
  , summary_mode := "current" }

/-- The `"daily"` entry of `NewsAnalyzer.MODE_STRATEGIES`. -/
def dailyStrategy : ModeStrategy :=
  { mode_name := "当日汇总模式"
  , description := "当日汇总模式（所有匹配新闻 + 新增新闻区域 + 按时推送）"
  , realtime_report_type := ""
  , summary_report_type := "当日汇总"
  , should_send_realtime := false
  , should_generate_summary := true
  , summary_mode := "daily" }

/-- Embedding of the `NewsAnalyzer.MODE_STRATEGIES` dict (lines 72-100):
an association list with exactly the three keys present in the source. -/
def MODE_STRATEGIES : List (String × ModeStrategy) :=
  [ ("incremental", incrementalStrategy)
  , ("current", currentStrategy)
  , ("daily", dailyStrategy) ]

/-- Association-list lookup with the first-match semantics of a Python
dict read (keys in `MODE_STRATEGIES` are distinct, so first match is the
only match). -/
def dictLookup {α : Type} (k : String) : List (String × α) → Option α
  | [] => none
  | p :: rest => if p.1 = k then some p.2 else dictLookup k rest

/-- Embedding of `NewsAnalyzer._get_mode_strategy` (lines 189-191):
`self.MODE_STRATEGIES.get(self.report_mode, self.MODE_STRATEGIES["daily"])`. -/
def getModeStrategy (reportMode : String) : ModeStrategy :=
  (dictLookup reportMode MODE_STRATEGIES).getD dailyStrategy

/-- Embedding of `NewsAnalyzer._get_mode_strategy` together with the
console output it produces.  The source function body is a single dict
lookup containing no `print` call, so its log output is the empty
list. -/
def getModeStrategyLogged (reportMode : String) : ModeStrategy × List String :=
  (getModeStrategy reportMode, [])

/-! ## Configuration

Channel credential fields are the string-valued config entries read by
`NewsAnalyzer._has_notification_configured`; an unset credential is the
empty string (Python falsy).  `PUSH_WINDOW.TIME_RANGE` is consulted only
through `push_manager.is_in_time_range`, whose outcome is an environment
input (`SendEnv.inTimeRange`). -/

structure PushWindowCfg where
  ENABLED : Bool
  ONCE_PER_DAY : Bool
  deriving Repr, DecidableEq

structure Config where
  ENABLE_NOTIFICATION : Bool
  PUSH_WINDOW : PushWindowCfg
  FEISHU_WEBHOOK_URL : String
  DINGTALK_WEBHOOK_URL : String
  WEWORK_WEBHOOK_URL : String
  TELEGRAM_BOT_TOKEN : String
  TELEGRAM_CHAT_ID : String
  EMAIL_FROM : String
  EMAIL_PASSWORD : String
  EMAIL_TO : String
  NTFY_SERVER_URL : String
  NTFY_TOPIC : String
  BARK_URL : String
  SLACK_WEBHOOK_URL : String
  deriving Repr, DecidableEq

/-- Embedding of `NewsAnalyzer._has_notification_configured` (lines
193-211): `any([...])` over the channels in source order, where a
config string is truthy iff nonempty. -/
def hasNotificationConfigured (cfg : Config) : Bool :=
  (cfg.FEISHU_WEBHOOK_URL != "")
  || (cfg.DINGTALK_WEBHOOK_URL != "")
  || (cfg.WEWORK_WEBHOOK_URL != "")
  || ((cfg.TELEGRAM_BOT_TOKEN != "") && (cfg.TELEGRAM_CHAT_ID != ""))
  || ((cfg.EMAIL_FROM != "") && (cfg.EMAIL_PASSWORD != "")
      && (cfg.EMAIL_TO != ""))
  || ((cfg.NTFY_SERVER_URL != "") && (cfg.NTFY_TOPIC != ""))
  || (cfg.BARK_URL != "")
  || (cfg.SLACK_WEBHOOK_URL != "")

/-- Specification-side characterization (from the spec's words, for the
refinement statement of claim C8): at least one channel has its minimum
required credential fields all non-empty. -/
def specAnyChannelConfigured (cfg : Config) : Prop :=
  cfg.FEISHU_WEBHOOK_URL ≠ ""
  ∨ cfg.DINGTALK_WEBHOOK_URL ≠ ""
  ∨ cfg.WEWORK_WEBHOOK_URL ≠ ""
  ∨ (cfg.TELEGRAM_BOT_TOKEN ≠ "" ∧ cfg.TELEGRAM_CHAT_ID ≠ "")
  ∨ (cfg.EMAIL_FROM ≠ "" ∧ cfg.EMAIL_PASSWORD ≠ "" ∧ cfg.EMAIL_TO ≠ "")
  ∨ (cfg.NTFY_SERVER_URL ≠ "" ∧ cfg.NTFY_TOPIC ≠ "")
  ∨ cfg.BARK_URL ≠ ""
  ∨ cfg.SLACK_WEBHOOK_URL ≠ ""

/-! ## NotificationDispatcher outcome and push-window environment -/

/-- The environment a single `_send_notification_if_needed` call runs in:
the answers the external collaborators would give.  `inTimeRange` is the
result of `push_manager.is_in_time_range(START, END)`, `pushedToday` the
result of `push_manager.has_pushed_today()`, and `dispatchResults` the
per-channel map returned by `dispatcher.dispatch_all(...)` (the
`DispatchOutcome`; an empty list embeds the falsy empty dict). -/
structure SendEnv where
  inTimeRange : Bool
  pushedToday : Bool
  dispatchResults : List (String × Bool)
  deriving Repr, DecidableEq

/-- The externally visible effects of one `_send_notification_if_needed`
call: its return value, whether `prepare_report` was reached, whether
`dispatcher.dispatch_all` was invoked, and the report type passed to
`push_manager.record_push` (or `none` when no push was recorded). -/
structure SendResult where
  returned : Bool
  prepared : Bool
  dispatched : Bool
  recorded : Option String
  deriving Repr, DecidableEq

/-- Embedding of `NewsAnalyzer._send_notification_if_needed` (lines
351-456).  The branch structure mirrors the source: the outer condition
`ENABLE_NOTIFICATION and has_notification and _has_valid_content(...)`;
then, when `PUSH_WINDOW.ENABLED`, the time-range check and (when
`ONCE_PER_DAY`) the `has_pushed_today` check, each returning `False`
before `prepare_report`; then report preparation and `dispatch_all`; an
empty outcome dict returns `False`; finally `record_push(report_type)`
exactly when `ENABLED and ONCE_PER_DAY and any(results.values())`. -/
def sendNotificationIfNeeded (cfg : Config) (reportMode : String)
    (stats : List MatchStat) (reportType : String)
    (newTitles : Option NewTitles) (env : SendEnv) : SendResult :=
  if cfg.ENABLE_NOTIFICATION && hasNotificationConfigured cfg
      && hasValidContent reportMode stats newTitles then
    if cfg.PUSH_WINDOW.ENABLED && !env.inTimeRange then
      { returned := false, prepared := false, dispatched := false
      , recorded := none }
    else if cfg.PUSH_WINDOW.ENABLED && cfg.PUSH_WINDOW.ONCE_PER_DAY
        && env.pushedToday then
      { returned := false, prepared := false, dispatched := false
      , recorded := none }
    else
      let results := env.dispatchResults
      if results.isEmpty then
        { returned := false, prepared := true, dispatched := true
        , recorded := none }
      else if cfg.PUSH_WINDOW.ENABLED && cfg.PUSH_WINDOW.ONCE_PER_DAY
          && results.any (fun c => c.2) then
        { returned := true, prepared := true, dispatched := true
        , recorded := some reportType }
      else
        { returned := true, prepared := true, dispatched := true
        , recorded := none }
  else
    { returned := false, prepared := false, dispatched := false
    , recorded := none }

/-! ## ReportOrchestrator: `NewsAnalyzer._execute_mode_strategy` -/

/-- The payload of one successful `_load_analysis_data` call, restricted
to the components the orchestration decisions consume: the match
statistics computed from it by `_run_analysis_pipeline` and the
new-title set it carries. -/
structure AnalysisData where
  stats : List MatchStat
  newTitles : NewTitles
  deriving Repr, DecidableEq

/-- The environment of one `_execute_mode_strategy` cycle. `loadedData`
is the result of the current-mode realtime `_load_analysis_data` call
(`none` embeds both a read failure and an empty read-back);
`summaryData` is the result of the summary phase's own
`_load_analysis_data` call; `currentStats` are the pipeline statistics
over this cycle's crawl `results` (non-current branch); `newTitles` is
the `detect_new_titles` result. -/
structure ModeEnv where
  cfg : Config
  reportMode : String
  newTitles : NewTitles
  currentStats : List MatchStat
  loadedData : Option AnalysisData
  summaryData : Option AnalysisData
  realtimeEnv : SendEnv
  summaryEnv : SendEnv
  deriving Repr, DecidableEq

/-- One notification-send attempt recorded in a cycle trace: the report
type passed to `_send_notification_if_needed` and its effects. -/
structure SendEvent where
  reportType : String
  result : SendResult
  deriving Repr, DecidableEq

/-- The externally visible outcome of one `_execute_mode_strategy`
cycle: the realtime-path and summary-path notification-send calls (at
most one each in the source) and the fatal error raised, if any (the
`RuntimeError` message of the Current-mode consistency check; `run`
re-raises it to the caller). -/
structure CycleOutcome where
  realtimeSend : Option SendEvent
  summarySend : Option SendEvent
  error : Option String
  deriving Repr, DecidableEq

/-- Embedding of the summary phase at the end of
`_execute_mode_strategy` (lines 946-956): when the strategy generates a
summary, a strategy with `should_send_realtime` calls
`_generate_summary_html` (artifact only, no notification send), and
otherwise `_generate_summary_report` is called, which sends the summary
notification via `_send_notification_if_needed` with
`summary_report_type` and `summary_mode` unless its own
`_load_analysis_data` call returned nothing (lines 458-499). -/
def summaryPhase (env : ModeEnv) (strategy : ModeStrategy) :
    Option SendEvent :=
  if strategy.should_generate_summary then
    if strategy.should_send_realtime then
      none
    else
      match env.summaryData with
      | none => none
      | some d =>
        some { reportType := strategy.summary_report_type
             , result := sendNotificationIfNeeded env.cfg env.reportMode
                 d.stats strategy.summary_report_type (some d.newTitles)
                 env.summaryEnv }
  else
    none

/-- Embedding of `NewsAnalyzer._execute_mode_strategy` (lines 853-974),
restricted to its notification decisions.  In `"current"` report mode
the realtime path first re-loads the full filtered history; if that load
yields nothing the source raises
`RuntimeError("数据一致性检查失败：保存后立即读取失败")` before any send.
Otherwise a realtime send is attempted exactly when
`should_send_realtime`, with `realtime_report_type`, and then the
summary phase runs. -/
def executeModeStrategy (env : ModeEnv) (strategy : ModeStrategy) :
    CycleOutcome :=
  if env.reportMode = "current" then
    match env.loadedData with
    | some d =>
      let realtimeSend :=
        if strategy.should_send_realtime then
          some { reportType := strategy.realtime_report_type
               , result := sendNotificationIfNeeded env.cfg env.reportMode
                   d.stats strategy.realtime_report_type (some d.newTitles)
                   env.realtimeEnv }
        else none
      { realtimeSend := realtimeSend
      , summarySend := summaryPhase env strategy
      , error := none }
    | none =>
      { realtimeSend := none
      , summarySend := none
      , error := some "数据一致性检查失败：保存后立即读取失败" }
  else
    let realtimeSend :=
      if strategy.should_send_realtime then
        some { reportType := strategy.realtime_report_type
             , result := sendNotificationIfNeeded env.cfg env.reportMode
                 env.currentStats strategy.realtime_report_type
                 (some env.newTitles) env.realtimeEnv }
      else none
    { realtimeSend := realtimeSend
    , summarySend := summaryPhase env strategy
    , error := none }

/-! ## CryptoFetcher: `trendradar/crawler/crypto_fetcher.py`

The per-symbol numeric payload is carried by IEEE floats in the source;
only the sign of `change_24h` influences control flow (the emoji choice)
and no claim depends on numeric formatting, so the float fields are
modelled as integers and the f-string formatting as plain
concatenation. -/

structure PriceData where
  price : Int
  change_24h : Int
  volume_24h : Int
  high_24h : Int
  low_24h : Int
  deriving Repr, DecidableEq

/-- Python dict update `d[k] = v`: replace the value in place when the
key is present, otherwise append the new pair. -/
def dictInsert {α : Type} (k : String) (v : α) :
    List (String × α) → List (String × α)
  | [] => [(k, v)]
  | p :: rest => if p.1 = k then (k, v) :: rest else p :: dictInsert k v rest

/-- Embedding of `CryptoFetcher.fetch_ticker_24h` (lines 43-105).  The
network interaction for one symbol is the external oracle: `oracle s =
some d` embeds a successful fetch-and-parse of symbol `s`, `oracle s =
none` embeds any of the caught exceptions (network error, data format
error, unknown error), each of which stores `None` for that symbol and
continues with the remaining symbols. -/
def fetchTicker24h (oracle : String → Option PriceData)
    (symbols : List String) : List (String × Option PriceData) :=
  symbols.foldl (fun results symbol => dictInsert symbol (oracle symbol) results) []

/-- Python `symbol.replace("USDT", "")`: delete every non-overlapping
occurrence of `"USDT"`, scanning left to right. -/
def removeUSDT : List Char → List Char
  | 'U' :: 'S' :: 'D' :: 'T' :: rest => removeUSDT rest
  | c :: rest => c :: removeUSDT rest
  | [] => []

/-- ASCII lowering of one character (Python `str.lower()` restricted to
the ASCII range the crypto symbols use). -/
def pyLowerChar (c : Char) : Char :=
  if 65 ≤ c.toNat ∧ c.toNat ≤ 90 then Char.ofNat (c.toNat + 32) else c

def pyLower (s : String) : String :=
  String.mk (s.toList.map pyLowerChar)

def cryptoBaseSymbol (symbol : String) : String :=
  String.mk (removeUSDT symbol.toList)

/-- The `source_id` chosen by `convert_to_news_format` for a symbol:
three special cases, then the generic
`f"crypto_{base_symbol.lower()}"`. -/
def cryptoSourceId (symbol : String) : String :=
  if symbol = "BTCUSDT" then "crypto_btc"
  else if symbol = "ETHUSDT" then "crypto_eth"
  else if symbol = "BNBUSDT" then "crypto_bnb"
  else "crypto_" ++ pyLower (cryptoBaseSymbol symbol)

/-- The `source_name` chosen by `convert_to_news_format`. -/
def cryptoSourceName (symbol : String) : String :=
  if symbol = "BTCUSDT" then "比特币 BTC"
  else if symbol = "ETHUSDT" then "以太坊 ETH"
  else if symbol = "BNBUSDT" then "币安币 BNB"
  else cryptoBaseSymbol symbol

/-- The `short_name` chosen by `convert_to_news_format`. -/
def cryptoShortName (symbol : String) : String :=
  if symbol = "BTCUSDT" then "BTC"
  else if symbol = "ETHUSDT" then "ETH"
  else if symbol = "BNBUSDT" then "BNB"
  else cryptoBaseSymbol symbol

/-- The synthetic news title built for one symbol (emoji chosen by the
sign of `change_24h`; numeric formatting simplified as documented
above). -/
def mkCryptoTitle (shortName : String) (d : PriceData) : String :=
  let emoji :=
    if 0 < d.change_24h then "📈" else if d.change_24h < 0 then "📉" else "➡️"
  shortName ++ " " ++ emoji ++ " $" ++ toString d.price ++ " ("
    ++ toString d.change_24h ++ "%) 24h成交量: " ++ toString d.volume_24h

def binanceTradeUrl (symbol : String) : String :=
  "https://www.binance.com/zh-CN/trade/" ++ symbol

/-- One value of the inner `{title: {ranks, url, mobileUrl}}` dict. -/
structure TitleEntry where
  ranks : List Nat
  url : String
  mobileUrl : String
  deriving Repr, DecidableEq

/-- The `(results, id_to_name, failed_ids)` triple being accumulated by
the `convert_to_news_format` loop. -/
structure ConvState where
  results : List (String × List (String × TitleEntry))
  idToName : List (String × String)
  failedIds : List String
  deriving Repr, DecidableEq

/-- One iteration of the `convert_to_news_format` loop: a `None` entry
appends its symbol to `failed_ids` and contributes nothing else; a
successful entry stores its source name and a single-title dict under
its `source_id`. -/
def convertStep (st : ConvState) (p : String × Option PriceData) : ConvState :=
  match p.2 with
  | none => { st with failedIds := st.failedIds ++ [p.1] }
  | some data =>
    let sid := cryptoSourceId p.1
    let url := binanceTradeUrl p.1
    let title := mkCryptoTitle (cryptoShortName p.1) data
    { results := dictInsert sid
        [(title, { ranks := [1], url := url, mobileUrl := url })] st.results
    , idToName := dictInsert sid (cryptoSourceName p.1) st.idToName
    , failedIds := st.failedIds }

/-- Embedding of `CryptoFetcher.convert_to_news_format` (lines 107-187):
the loop over `price_data.items()` in dict order. -/
def convertToNewsFormat (priceData : List (String × Option PriceData)) :
    ConvState :=
  priceData.foldl convertStep { results := [], idToName := [], failedIds := [] }

/-! ## Version check: `check_version_update` -/

/-- Python `str.strip()` on a character list: whitespace removed from
both ends. -/
def pyStripChars (cs : List Char) : List Char :=
  ((cs.dropWhile Char.isWhitespace).reverse.dropWhile Char.isWhitespace).reverse

def pyStrip (s : String) : String :=
  String.mk (pyStripChars s.toList)

/-- Python `str.split(".")`: split at every dot, keeping empty pieces
(so `"" → [""]` and `"1..2" → ["1", "", "2"]`). -/
def splitDot : List Char → List (List Char)
  | [] => [[]]
  | c :: rest =>
    let r := splitDot rest
    if c = '.' then [] :: r
    else
      match r with
      | [] => [[c]]
      | h :: t => (c :: h) :: t

/-- Well-formedness of the part of a Python integer literal after the
first digit: digits, with single underscores allowed only between
digits. -/
def pyIntRest : List Char → Bool
  | [] => true
  | ['_'] => false
  | '_' :: c :: rest => c.isDigit && pyIntRest (c :: rest)
  | c :: rest => c.isDigit && pyIntRest rest

/-- Well-formedness of the body of a Python integer literal (after an
optional sign): nonempty, starting with a digit. -/
def pyIntBody : List Char → Bool
  | [] => false
  | c :: rest => c.isDigit && pyIntRest rest

def pyDigitsVal (cs : List Char) : Nat :=
  cs.foldl (fun a c => a * 10 + (c.toNat - 48)) 0

/-- Python `int(str)` on a character list: strip whitespace, accept an
optional sign, then digits with underscores between digits; any other
shape raises `ValueError`, embedded as `none`. -/
def pyIntChars (cs0 : List Char) : Option Int :=
  let cs := pyStripChars cs0
  let signBody : Int × List Char :=
    match cs with
    | '-' :: rest => (-1, rest)
    | '+' :: rest => (1, rest)
    | _ => (1, cs)
  if pyIntBody signBody.2 then
    some (signBody.1 * (pyDigitsVal (signBody.2.filter (fun c => c ≠ '_')) : Int))
  else
    none

/-- Embedding of the inner `parse_version` of `check_version_update`
(lines 47-54): strip, split on dots, require exactly three parts each
parsing as a Python int; any failure is caught and yields `(0, 0, 0)`. -/
def parseVersion (versionStr : String) : Int × Int × Int :=
  match splitDot (pyStripChars versionStr.toList) with
  | [a, b, c] =>
    match pyIntChars a, pyIntChars b, pyIntChars c with
    | some x, some y, some z => (x, y, z)
    | _, _, _ => (0, 0, 0)
  | _ => (0, 0, 0)

/-- Python tuple comparison `current_tuple < remote_tuple`:
lexicographic order on triples. -/
def versionLt : Int × Int × Int → Int × Int × Int → Bool
  | (a, b, c), (x, y, z) =>
    decide (a < x) || (decide (a = x)
      && (decide (b < y) || (decide (b = y) && decide (c < z))))

/-- Specification-side lexicographic order on parsed triples (from the
spec's words, for the refinement statement of claim C10). -/
def specVersionLt (p q : Int × Int × Int) : Prop :=
  p.1 < q.1 ∨ (p.1 = q.1 ∧ (p.2.1 < q.2.1 ∨ (p.2.1 = q.2.1 ∧ p.2.2 < q.2.2)))

/-- Embedding of `check_version_update` (lines 23-64).  The HTTP fetch
is the external input: `none` embeds any raised exception (network
error, bad status), which the source catches and turns into
`(False, None)`; `some text` embeds a successful response body, which is
stripped and compared as parsed version triples.  On `need_update` the
stripped remote version string is returned, else `None`. -/
def checkVersionUpdate (currentVersion : String)
    (fetchedText : Option String) : Bool × Option String :=
  match fetchedText with
  | none => (false, none)
  | some text =>
    let remoteVersion := pyStrip text
    let needUpdate :=
      versionLt (parseVersion currentVersion) (parseVersion remoteVersion)
    (needUpdate, if needUpdate then some remoteVersion else none)

/-! ## Helper lemmas -/

/-- Python truthiness of a dict conjoined with an existential over its
values collapses to the existential. -/
lemma isEmpty_and_any (m : NewTitles) (f : String × List String → Bool) :
    (!m.isEmpty && m.any f) = m.any f := by
  cases m <;> simp

lemma versionLt_iff_specVersionLt (p q : Int × Int × Int) :
    versionLt p q = true ↔ specVersionLt p q := by
  obtain ⟨a, b, c⟩ := p
  obtain ⟨x, y, z⟩ := q
  simp [versionLt, specVersionLt]

/-! ## Claim C1 -/

/-- Claim C1: for every mode and every `(stats, newTitles)` input,
`_has_valid_content` returns exactly the truth table of spec section
4.2 — incremental is "has a new title AND has a matched stat", current
is "has a matched stat", daily is "has a matched stat OR has a new
title". -/
theorem c1_content_gate_truth_table (stats : List MatchStat)
    (nt : Option NewTitles) :
    hasValidContent "incremental" stats nt
        = (specHasNewTitles nt && specHasMatched stats)
    ∧ hasValidContent "current" stats nt = specHasMatched stats
    ∧ hasValidContent "daily" stats nt
        = (specHasMatched stats || specHasNewTitles nt) := by
  refine ⟨?_, ?_, ?_⟩ <;>
    cases nt <;>
      simp [hasValidContent, specHasNewTitles, specHasMatched, isEmpty_and_any]

/-! ## Claim C3 -/

/-- Claim C3: in current mode, when the re-read of the just-written
history yields nothing (`_load_analysis_data` returns `None`), the
orchestrator raises the consistency `RuntimeError` and the cycle ends
with no notification-send call at all — hence no dispatch attempt — and
the error propagates (it is the `error` component of the outcome, which
`run` re-raises). -/
theorem c3_current_mode_consistency_abort (env : ModeEnv)
    (strategy : ModeStrategy) (hmode : env.reportMode = "current")
    (hload : env.loadedData = none) :
    executeModeStrategy env strategy =
      { realtimeSend := none, summarySend := none
      , error := some "数据一致性检查失败：保存后立即读取失败" } := by
  simp [executeModeStrategy, hmode, hload]

/-- Concrete configuration with only the Feishu webhook configured. -/
def cfgFeishuOnly : Config :=
  { ENABLE_NOTIFICATION := true
  , PUSH_WINDOW := { ENABLED := false, ONCE_PER_DAY := false }
  , FEISHU_WEBHOOK_URL := "https://open.feishu.cn/hook/xyz"
  , DINGTALK_WEBHOOK_URL := ""
  , WEWORK_WEBHOOK_URL := ""
  , TELEGRAM_BOT_TOKEN := ""
  , TELEGRAM_CHAT_ID := ""
  , EMAIL_FROM := ""
  , EMAIL_PASSWORD := ""
  , EMAIL_TO := ""
  , NTFY_SERVER_URL := ""
  , NTFY_TOPIC := ""
  , BARK_URL := ""
  , SLACK_WEBHOOK_URL := "" }

/-- Concrete cycle environment for the claim C3 witness: current mode,
history read-back empty. -/
def envC3 : ModeEnv :=
  { cfg := cfgFeishuOnly
  , reportMode := "current"
  , newTitles := [("weibo", ["标题一"])]
  , currentStats := [{ group_key := "科技", count := 1 }]
  , loadedData := none
  , summaryData := some { stats := [{ group_key := "科技", count := 1 }]
                        , newTitles := [("weibo", ["标题一"])] }
  , realtimeEnv := { inTimeRange := true, pushedToday := false
                   , dispatchResults := [("feishu", true)] }
  , summaryEnv := { inTimeRange := true, pushedToday := false
                  , dispatchResults := [("feishu", true)] } }

/-- Witness for claim C3 at a concrete cycle environment. -/
theorem c3_current_mode_consistency_abort_witness :
    executeModeStrategy envC3 currentStrategy =
      { realtimeSend := none, summarySend := none
      , error := some "数据一致性检查失败：保存后立即读取失败" } :=
  c3_current_mode_consistency_abort envC3 currentStrategy rfl rfl

/-- Characterization of the recorded push of one
`_send_notification_if_needed` call: something is recorded exactly when
every gate passed, the dispatch outcome was nonempty, and the source's
record condition (`ENABLED and ONCE_PER_DAY and any(results.values())`)
held — and then the recorded type is the call's report type. -/
lemma send_recorded_eq (cfg : Config) (mode : String) (stats : List MatchStat)
    (rt : String) (nt : Option NewTitles) (env : SendEnv) :
    (sendNotificationIfNeeded cfg mode stats rt nt env).recorded =
      if (cfg.ENABLE_NOTIFICATION && hasNotificationConfigured cfg
            && hasValidContent mode stats nt)
          && !(cfg.PUSH_WINDOW.ENABLED && !env.inTimeRange)
          && !(cfg.PUSH_WINDOW.ENABLED && cfg.PUSH_WINDOW.ONCE_PER_DAY
                && env.pushedToday)
          && !env.dispatchResults.isEmpty
          && (cfg.PUSH_WINDOW.ENABLED && cfg.PUSH_WINDOW.ONCE_PER_DAY
                && env.dispatchResults.any (fun c => c.2)) then some rt
      else none := by
  unfold sendNotificationIfNeeded
  repeat' split <;> (try simp_all [imp_iff_not_or])

/-- Characterization of whether `dispatcher.dispatch_all` was invoked:
exactly when the content gate and the push-window gates all passed. -/
lemma send_dispatched_eq (cfg : Config) (mode : String) (stats : List MatchStat)
    (rt : String) (nt : Option NewTitles) (env : SendEnv) :
    (sendNotificationIfNeeded cfg mode stats rt nt env).dispatched =
      ((cfg.ENABLE_NOTIFICATION && hasNotificationConfigured cfg
          && hasValidContent mode stats nt)
        && !(cfg.PUSH_WINDOW.ENABLED && !env.inTimeRange)
        && !(cfg.PUSH_WINDOW.ENABLED && cfg.PUSH_WINDOW.ONCE_PER_DAY
              && env.pushedToday)) := by
  unfold sendNotificationIfNeeded
  repeat' split <;> (try simp_all [imp_iff_not_or])

/-- The report is prepared exactly when it is dispatched (in the source,
`prepare_report` immediately precedes `dispatch_all` on the same
path). -/
lemma send_prepared_eq (cfg : Config) (mode : String) (stats : List MatchStat)
    (rt : String) (nt : Option NewTitles) (env : SendEnv) :
    (sendNotificationIfNeeded cfg mode stats rt nt env).prepared =
      (sendNotificationIfNeeded cfg mode stats rt nt env).dispatched := by
  unfold sendNotificationIfNeeded
  repeat' split <;> (try simp_all [imp_iff_not_or])

/-! ## Claim C4 -/

/-- Claim C4: `record_push` is only reached after a `dispatch_all`
outcome with at least one successful channel; an all-failure outcome or
an empty (no channel configured) outcome never records a push. -/
theorem c4_record_only_after_success (cfg : Config) (mode : String)
    (stats : List MatchStat) (rt : String) (nt : Option NewTitles)
    (env : SendEnv) :
    ((sendNotificationIfNeeded cfg mode stats rt nt env).recorded.isSome = true →
      (sendNotificationIfNeeded cfg mode stats rt nt env).dispatched = true
      ∧ env.dispatchResults.any (fun c => c.2) = true)
    ∧ (env.dispatchResults = [] →
      (sendNotificationIfNeeded cfg mode stats rt nt env).recorded = none)
    ∧ (env.dispatchResults.all (fun c => !c.2) = true →
      (sendNotificationIfNeeded cfg mode stats rt nt env).recorded = none) := by
  have hr := send_recorded_eq cfg mode stats rt nt env
  have hd := send_dispatched_eq cfg mode stats rt nt env
  refine ⟨?_, ?_, ?_⟩
  · intro h
    rw [hr] at h
    split at h
    · rename_i hc
      rw [hd]
      simp only [Bool.and_eq_true, Bool.not_eq_true'] at hc
      simp_all
    · simp at h
  · intro h
    rw [hr]
    simp [h]
  · intro h
    rw [hr]
    have hany : env.dispatchResults.any (fun c => c.2) = false := by
      rw [List.any_eq_false]
      intro c hc
      have := List.all_eq_true.mp h c hc
      simp_all
    simp [hany]

/-- Concrete send environment with an empty dispatch outcome (no channel
configured at dispatch time). -/
def envNoChannel : SendEnv :=
  { inTimeRange := true, pushedToday := false, dispatchResults := [] }

/-- Witness for claim C4: with an empty dispatch outcome no push is
recorded. -/
theorem c4_record_only_after_success_witness :
    (sendNotificationIfNeeded cfgFeishuOnly "current"
      [{ group_key := "科技", count := 1 }] "实时当前榜单" (some [])
      envNoChannel).recorded = none :=
  (c4_record_only_after_success cfgFeishuOnly "current"
    [{ group_key := "科技", count := 1 }] "实时当前榜单" (some [])
    envNoChannel).2.1 rfl

/-! ## Claim C5 -/

/-- Claim C5 (amended): when the push window is enabled, once-per-day is
enabled and a push was already recorded today, a cycle with valid
content neither prepares nor dispatches the report: the send function
returns `False` at the `has_pushed_today` check.  (The amendment adds
the `PUSH_WINDOW.ENABLED` condition: the source consults
`has_pushed_today` only inside the `ENABLED` branch.) -/
theorem c5_once_per_day_blocks_dispatch (cfg : Config) (mode : String)
    (stats : List MatchStat) (rt : String) (nt : Option NewTitles)
    (env : SendEnv) (hEn : cfg.PUSH_WINDOW.ENABLED = true)
    (hOpd : cfg.PUSH_WINDOW.ONCE_PER_DAY = true)
    (hPushed : env.pushedToday = true)
    (_hValid : hasValidContent mode stats nt = true) :
    sendNotificationIfNeeded cfg mode stats rt nt env =
      { returned := false, prepared := false, dispatched := false
      , recorded := none } := by
  unfold sendNotificationIfNeeded
  repeat' split <;> simp_all [imp_iff_not_or]

/-- Configuration with the push window disabled but once-per-day set,
used to refute claim C5 as frozen. -/
def cfgWindowOff : Config :=
  { cfgFeishuOnly with
    PUSH_WINDOW := { ENABLED := false, ONCE_PER_DAY := true } }

/-- Send environment in which a push was already recorded today and the
single channel would succeed. -/
def envPushedToday : SendEnv :=
  { inTimeRange := true, pushedToday := true
  , dispatchResults := [("feishu", true)] }

/-- Counterexample to claim C5 as frozen: with `ONCE_PER_DAY = true` but
`PUSH_WINDOW.ENABLED = false`, a cycle with valid content and a push
already recorded today still reaches `dispatch_all` (and returns
`True`), because the source consults the once-per-day state only when
the window is enabled. -/
theorem c5_counterexample :
    cfgWindowOff.PUSH_WINDOW.ONCE_PER_DAY = true
    ∧ envPushedToday.pushedToday = true
    ∧ hasValidContent "current" [{ group_key := "科技", count := 1 }]
        (some []) = true
    ∧ (sendNotificationIfNeeded cfgWindowOff "current"
        [{ group_key := "科技", count := 1 }] "实时当前榜单" (some [])
        envPushedToday).dispatched = true
    ∧ (sendNotificationIfNeeded cfgWindowOff "current"
        [{ group_key := "科技", count := 1 }] "实时当前榜单" (some [])
        envPushedToday).returned = true := by
  decide

/-- Configuration with the push window and once-per-day both enabled. -/
def cfgWindowOn : Config :=
  { cfgFeishuOnly with
    PUSH_WINDOW := { ENABLED := true, ONCE_PER_DAY := true } }

/-- Witness for the amended claim C5 at a concrete input. -/
theorem c5_once_per_day_blocks_dispatch_witness :
    sendNotificationIfNeeded cfgWindowOn "current"
      [{ group_key := "科技", count := 1 }] "实时当前榜单" (some [])
      envPushedToday =
      { returned := false, prepared := false, dispatched := false
      , recorded := none } :=
  c5_once_per_day_blocks_dispatch cfgWindowOn "current"
    [{ group_key := "科技", count := 1 }] "实时当前榜单" (some [])
    envPushedToday rfl rfl rfl (by decide)

/-! ## Claim C6 -/

/-- Claim C6 (amended): when the push window is enabled AND once-per-day
is enabled, a dispatch with at least one successful channel records the
call's report type; and in the orchestrator the realtime path's send
call carries `realtime_report_type` while the summary path's send call
carries `summary_report_type`.  (The amendment adds the `ONCE_PER_DAY`
condition: the source records a push only when
`ENABLED and ONCE_PER_DAY and any(results.values())`.) -/
theorem c6_record_uses_path_report_type :
    (∀ (cfg : Config) (mode : String) (stats : List MatchStat) (rt : String)
        (nt : Option NewTitles) (env : SendEnv),
      cfg.PUSH_WINDOW.ENABLED = true → cfg.PUSH_WINDOW.ONCE_PER_DAY = true →
      (sendNotificationIfNeeded cfg mode stats rt nt env).dispatched = true →
      env.dispatchResults.any (fun c => c.2) = true →
      (sendNotificationIfNeeded cfg mode stats rt nt env).recorded = some rt)
    ∧ (∀ (env : ModeEnv) (strategy : ModeStrategy) (e : SendEvent),
        (executeModeStrategy env strategy).realtimeSend = some e →
        e.reportType = strategy.realtime_report_type)
    ∧ (∀ (env : ModeEnv) (strategy : ModeStrategy) (e : SendEvent),
        (executeModeStrategy env strategy).summarySend = some e →
        e.reportType = strategy.summary_report_type) := by
  refine ⟨?_, ?_, ?_⟩
  · intro cfg mode stats rt nt env hEn hOpd hDisp hAny
    rw [send_dispatched_eq] at hDisp
    rw [send_recorded_eq]
    have hne : env.dispatchResults.isEmpty = false := by
      rcases List.any_eq_true.mp hAny with ⟨c, hc, _⟩
      cases henv : env.dispatchResults
      · simp [henv] at hc
      · simp [henv]
    simp only [Bool.and_eq_true, Bool.not_eq_true'] at hDisp
    simp_all
  · intro env strategy e
    unfold executeModeStrategy
    repeat' split <;> simp_all
    all_goals intros
    all_goals rename_i he
    all_goals (cases he; rfl)
  · intro env strategy e
    unfold executeModeStrategy summaryPhase
    repeat' split <;> simp_all
    all_goals intros
    all_goals rename_i he
    all_goals (cases he; rfl)

/-- Configuration with the push window enabled but once-per-day
disabled, used to refute claim C6 as frozen. -/
def cfgNoOncePerDay : Config :=
  { cfgFeishuOnly with
    PUSH_WINDOW := { ENABLED := true, ONCE_PER_DAY := false } }

/-- Send environment inside the window, nothing pushed yet, one
successful channel. -/
def envOneSuccess : SendEnv :=
  { inTimeRange := true, pushedToday := false
  , dispatchResults := [("feishu", true)] }

/-- Counterexample to claim C6 as frozen: push window enabled, dispatch
succeeded on a channel, yet no push is recorded, because the source
additionally requires `ONCE_PER_DAY` before calling `record_push`. -/
theorem c6_counterexample :
    cfgNoOncePerDay.PUSH_WINDOW.ENABLED = true
    ∧ (sendNotificationIfNeeded cfgNoOncePerDay "current"
        [{ group_key := "科技", count := 1 }] "实时当前榜单" (some [])
        envOneSuccess).dispatched = true
    ∧ envOneSuccess.dispatchResults.any (fun c => c.2) = true
    ∧ (sendNotificationIfNeeded cfgNoOncePerDay "current"
        [{ group_key := "科技", count := 1 }] "实时当前榜单" (some [])
        envOneSuccess).recorded = none := by
  decide

/-- Witness for the amended claim C6 at a concrete input: with window
and once-per-day enabled and a successful channel, the call's report
type is recorded. -/
theorem c6_record_uses_path_report_type_witness :
    (sendNotificationIfNeeded cfgWindowOn "current"
      [{ group_key := "科技", count := 1 }] "当前榜单汇总" (some [])
      envOneSuccess).recorded = some "当前榜单汇总" :=
  c6_record_uses_path_report_type.1 cfgWindowOn "current"
    [{ group_key := "科技", count := 1 }] "当前榜单汇总" (some [])
    envOneSuccess rfl rfl (by decide) (by decide)

/-! ## Claim C7 -/

/-- Claim C7 (amended): the strategy registry contains exactly the
three variants with the spec's flags (incremental and current send
realtime, daily does not and has an empty realtime report type, all
three generate a summary), and every unrecognized mode name falls back
to the daily strategy — silently: the lookup logs no warning.  (The
amendment drops "with a logged warning": `_get_mode_strategy` is a bare
dict lookup with no logging.) -/
theorem c7_mode_registry_and_fallback :
    MODE_STRATEGIES.map Prod.fst = ["incremental", "current", "daily"]
    ∧ getModeStrategy "incremental" = incrementalStrategy
    ∧ getModeStrategy "current" = currentStrategy
    ∧ getModeStrategy "daily" = dailyStrategy
    ∧ incrementalStrategy.should_send_realtime = true
    ∧ currentStrategy.should_send_realtime = true
    ∧ dailyStrategy.should_send_realtime = false
    ∧ dailyStrategy.realtime_report_type = ""
    ∧ incrementalStrategy.should_generate_summary = true
    ∧ currentStrategy.should_generate_summary = true
    ∧ dailyStrategy.should_generate_summary = true
    ∧ (∀ m : String, m ≠ "incremental" → m ≠ "current" → m ≠ "daily" →
        getModeStrategyLogged m = (dailyStrategy, [])) := by
  refine ⟨rfl, rfl, rfl, rfl, rfl, rfl, rfl, rfl, rfl, rfl, rfl, ?_⟩
  intro m h1 h2 h3
  simp [getModeStrategyLogged, getModeStrategy, MODE_STRATEGIES, dictLookup,
    Ne.symm h1, Ne.symm h2, Ne.symm h3]

/-- Counterexample to claim C7 as frozen: an unrecognized mode name
falls back to the daily strategy but the lookup emits no warning (its
log output is empty), refuting "with a logged warning". -/
theorem c7_counterexample :
    getModeStrategyLogged "unknown_mode" = (dailyStrategy, [])
    ∧ (getModeStrategyLogged "unknown_mode").2.length = 0 := by
  decide

/-- Witness for the amended claim C7 at a concrete unrecognized mode
name. -/
theorem c7_mode_registry_and_fallback_witness :
    getModeStrategyLogged "weekly" = (dailyStrategy, []) :=
  c7_mode_registry_and_fallback.2.2.2.2.2.2.2.2.2.2.2 "weekly"
    (by decide) (by decide) (by decide)

/-! ## Claim C8 -/

/-- Claim C8: a channel counts as configured exactly when its minimum
credential fields are all non-empty (webhook URL channels need their
URL, the bot channel needs token and chat id, email needs from,
password and to, the server-push channel needs server URL and topic),
`_has_notification_configured` is true iff at least one channel
qualifies, and when none qualifies the send function attempts no
preparation and no dispatch. -/
theorem c8_channel_configured_iff (cfg : Config) :
    (hasNotificationConfigured cfg = true ↔ specAnyChannelConfigured cfg)
    ∧ (∀ (mode : String) (stats : List MatchStat) (rt : String)
        (nt : Option NewTitles) (env : SendEnv),
      hasNotificationConfigured cfg = false →
      (sendNotificationIfNeeded cfg mode stats rt nt env).returned = false
      ∧ (sendNotificationIfNeeded cfg mode stats rt nt env).prepared = false
      ∧ (sendNotificationIfNeeded cfg mode stats rt nt env).dispatched = false) := by
  constructor
  · simp only [hasNotificationConfigured, specAnyChannelConfigured,
      Bool.or_eq_true, Bool.and_eq_true, bne_iff_ne]
    tauto
  · intro mode stats rt nt env h
    unfold sendNotificationIfNeeded
    simp [h]

/-- Configuration with every channel credential empty. -/
def cfgNoChannels : Config :=
  { cfgFeishuOnly with FEISHU_WEBHOOK_URL := "" }

/-- Witness for claim C8 at a concrete unconfigured input. -/
theorem c8_channel_configured_iff_witness :
    (sendNotificationIfNeeded cfgNoChannels "daily"
      [{ group_key := "科技", count := 1 }] "当日汇总" (some [])
      envOneSuccess).dispatched = false :=
  ((c8_channel_configured_iff cfgNoChannels).2 "daily"
    [{ group_key := "科技", count := 1 }] "当日汇总" (some [])
    envOneSuccess (by decide)).2.2

/-! ## Claim C2 -/

/-- Claim C2 (amended): if a realtime push actually happened this cycle,
the summary path performs no second notification send (no mode pushes
both a realtime and a summary notification for one cycle's content).
The branch the source takes, however, is on the strategy's
`should_send_realtime` flag, not on whether the realtime push actually
occurred: whenever the strategy sends realtime, the summary path only
generates the HTML artifact even if the realtime push was skipped; the
gate-throttle-dispatch-record sequence with `summary_report_type` runs
exactly on the summary-send path of strategies with
`should_send_realtime = false`: for those strategies, whenever the
summary is generated, the cycle did not abort and the summary data
loaded, the summary send with `summary_report_type` actually occurs
(last conjunct). -/
theorem c2_summary_push_exclusivity (env : ModeEnv) (strategy : ModeStrategy) :
    ((∃ e, (executeModeStrategy env strategy).realtimeSend = some e
        ∧ e.result.returned = true) →
      (executeModeStrategy env strategy).summarySend = none)
    ∧ (strategy.should_send_realtime = true →
        (executeModeStrategy env strategy).summarySend = none)
    ∧ (∀ e, (executeModeStrategy env strategy).summarySend = some e →
        strategy.should_send_realtime = false
        ∧ strategy.should_generate_summary = true
        ∧ e.reportType = strategy.summary_report_type
        ∧ ∃ d, env.summaryData = some d
            ∧ e.result = sendNotificationIfNeeded env.cfg env.reportMode
                d.stats strategy.summary_report_type (some d.newTitles)
                env.summaryEnv)
    ∧ (strategy.should_send_realtime = false →
        strategy.should_generate_summary = true →
        (executeModeStrategy env strategy).error = none →
        ∀ d, env.summaryData = some d →
        (executeModeStrategy env strategy).summarySend =
          some { reportType := strategy.summary_report_type
               , result := sendNotificationIfNeeded env.cfg env.reportMode
                   d.stats strategy.summary_report_type (some d.newTitles)
                   env.summaryEnv }) := by
  have h2 : strategy.should_send_realtime = true →
      (executeModeStrategy env strategy).summarySend = none := by
    intro hf
    unfold executeModeStrategy summaryPhase
    repeat' split <;> simp_all
  refine ⟨?_, h2, ?_, ?_⟩
  · rintro ⟨e, he, _⟩
    cases hf : strategy.should_send_realtime
    · exfalso
      unfold executeModeStrategy at he
      repeat' split at he <;> simp_all
    · exact h2 hf
  · intro e he
    unfold executeModeStrategy summaryPhase at he
    repeat' split at he <;> simp_all
    all_goals obtain ⟨hg, hs, heq⟩ := he
    all_goals (cases heq; exact ⟨rfl, rfl⟩)
  · intro hf hg herr d hd
    unfold executeModeStrategy at herr ⊢
    unfold summaryPhase
    repeat' split <;> simp_all

/-- Concrete cycle environment refuting claim C2 as frozen: incremental
mode, a matched stat but no new titles (so the realtime gate fails and
no realtime push happens), while the summary-phase data would pass the
gate and the single channel would succeed. -/
def envC2 : ModeEnv :=
  { cfg := cfgFeishuOnly
  , reportMode := "incremental"
  , newTitles := [("weibo", [])]
  , currentStats := [{ group_key := "科技", count := 2 }]
  , loadedData := none
  , summaryData := some { stats := [{ group_key := "科技", count := 2 }]
                        , newTitles := [("weibo", ["新标题"])] }
  , realtimeEnv := { inTimeRange := true, pushedToday := false
                   , dispatchResults := [("feishu", true)] }
  , summaryEnv := { inTimeRange := true, pushedToday := false
                  , dispatchResults := [("feishu", true)] } }

/-- Counterexample to claim C2 as frozen.  In `envC2` no realtime push
happened (the realtime send returned `False`: incremental gate fails
for an empty new-title set), so the claim's "otherwise" branch demands
the summary path apply the gate-throttle-dispatch sequence with
`summary_report_type`; the last conjunct shows that sequence would have
dispatched — yet the source's summary path performs no send at all
(`summarySend = none`), because it branches on `should_send_realtime`
rather than on whether a realtime push happened. -/
theorem c2_counterexample :
    (executeModeStrategy envC2 incrementalStrategy).realtimeSend =
      some { reportType := "实时增量"
           , result := { returned := false, prepared := false
                       , dispatched := false, recorded := none } }
    ∧ (executeModeStrategy envC2 incrementalStrategy).summarySend = none
    ∧ hasValidContent "incremental"
        [{ group_key := "科技", count := 2 }]
        (some [("weibo", ["新标题"])]) = true
    ∧ (sendNotificationIfNeeded cfgFeishuOnly "incremental"
        [{ group_key := "科技", count := 2 }] "当日汇总"
        (some [("weibo", ["新标题"])]) envC2.summaryEnv).dispatched = true := by
  decide

/-- Concrete cycle environment for the daily-mode half of the claim C2
witness: a strategy that does not send realtime, with loadable summary
data that passes the gate. -/
def envC2d : ModeEnv :=
  { cfg := cfgFeishuOnly
  , reportMode := "daily"
  , newTitles := [("weibo", ["新标题"])]
  , currentStats := [{ group_key := "科技", count := 2 }]
  , loadedData := none
  , summaryData := some { stats := [{ group_key := "科技", count := 2 }]
                        , newTitles := [("weibo", ["新标题"])] }
  , realtimeEnv := { inTimeRange := true, pushedToday := false
                   , dispatchResults := [("feishu", true)] }
  , summaryEnv := { inTimeRange := true, pushedToday := false
                  , dispatchResults := [("feishu", true)] } }

/-- Witness for the amended claim C2 at concrete inputs: a strategy
that sends realtime performs no summary send, and a strategy that does
not send realtime actually performs the summary send with
`summary_report_type`, dispatching through the gate-throttle sequence. -/
theorem c2_summary_push_exclusivity_witness :
    (executeModeStrategy envC2 incrementalStrategy).summarySend = none
    ∧ (executeModeStrategy envC2d dailyStrategy).summarySend =
        some { reportType := "当日汇总"
             , result := { returned := true, prepared := true
                         , dispatched := true, recorded := none } } := by
  constructor
  · exact (c2_summary_push_exclusivity envC2 incrementalStrategy).2.1 rfl
  · have h := (c2_summary_push_exclusivity envC2d dailyStrategy).2.2.2
      rfl rfl (by decide) _ rfl
    rw [h]
    decide

/-! ## Claim C9: dict lemmas -/

/-- Lookup after a dict update: the updated key reads the new value,
every other key is unaffected. -/
lemma dictLookup_dictInsert {α : Type} (k k' : String) (v : α)
    (l : List (String × α)) :
    dictLookup k' (dictInsert k v l) =
      if k' = k then some v else dictLookup k' l := by
  induction l with
  | nil =>
    by_cases h : k' = k
    · subst h
      simp [dictInsert, dictLookup]
    · have h2 : ¬k = k' := fun hh => h hh.symm
      simp [dictInsert, dictLookup, h, h2]
  | cons p rest ih =>
    by_cases hp : p.1 = k <;> by_cases h : k' = k
    · subst h
      simp [dictInsert, dictLookup, hp]
    · have h2 : ¬k = k' := fun hh => h hh.symm
      simp [dictInsert, dictLookup, hp, h, h2]
    · subst h
      simp [dictInsert, dictLookup, hp, ih]
    · have h2 : ¬k = k' := fun hh => h hh.symm
      simp [dictInsert, dictLookup, hp, h, h2, ih]

/-- A successful lookup is list membership. -/
lemma mem_of_dictLookup {α : Type} (k : String) (v : α)
    (l : List (String × α)) (h : dictLookup k l = some v) : (k, v) ∈ l := by
  induction l with
  | nil => simp [dictLookup] at h
  | cons p rest ih =>
    by_cases hp : p.1 = k
    · simp [dictLookup, hp] at h
      have hpv : p = (k, v) := Prod.ext_iff.mpr ⟨hp, h⟩
      rw [hpv]
      exact List.mem_cons_self _ _
    · simp [dictLookup, hp] at h
      exact List.mem_cons_of_mem _ (ih h)

/-- Every element of an updated dict is the new pair or an original
element. -/
lemma mem_dictInsert_elim {α : Type} (k : String) (v : α)
    (l : List (String × α)) (p : String × α) (h : p ∈ dictInsert k v l) :
    p = (k, v) ∨ p ∈ l := by
  induction l with
  | nil =>
    simp [dictInsert] at h
    exact Or.inl h
  | cons q rest ih =>
    by_cases hq : q.1 = k
    · simp only [dictInsert, if_pos hq, List.mem_cons] at h
      rcases h with h | h
      · exact Or.inl h
      · exact Or.inr (List.mem_cons_of_mem _ h)
    · simp only [dictInsert, if_neg hq, List.mem_cons] at h
      rcases h with h | h
      · exact Or.inr (by simp [h])
      · rcases ih h with h2 | h2
        · exact Or.inl h2
        · exact Or.inr (List.mem_cons_of_mem _ h2)

/-- The updated key appears in an updated dict. -/
lemma keys_dictInsert_self {α : Type} (k : String) (v : α)
    (l : List (String × α)) : ∃ w, (k, w) ∈ dictInsert k v l := by
  induction l with
  | nil => exact ⟨v, by simp [dictInsert]⟩
  | cons q rest ih =>
    by_cases hq : q.1 = k
    · exact ⟨v, by simp [dictInsert, hq]⟩
    · obtain ⟨w, hw⟩ := ih
      refine ⟨w, ?_⟩
      simp only [dictInsert, if_neg hq]
      exact List.mem_cons_of_mem _ hw

/-- Updating a dict preserves its existing keys. -/
lemma keys_dictInsert_of_mem {α : Type} (k k' : String) (v : α)
    (l : List (String × α)) (h : ∃ w, (k', w) ∈ l) :
    ∃ w, (k', w) ∈ dictInsert k v l := by
  by_cases he : k' = k
  · subst he
    exact keys_dictInsert_self k' v l
  · obtain ⟨w, hw⟩ := h
    refine ⟨w, ?_⟩
    induction l with
    | nil => simp at hw
    | cons q rest ih =>
      by_cases hq : q.1 = k
      · simp only [dictInsert, if_pos hq]
        rcases List.mem_cons.mp hw with h2 | h2
        · exfalso
          apply he
          have h3 : k' = q.1 := by rw [← h2]
          exact h3.trans hq
        · exact List.mem_cons_of_mem _ h2
      · simp only [dictInsert, if_neg hq]
        rcases List.mem_cons.mp hw with h2 | h2
        · rw [h2]
          exact List.mem_cons_self _ _
        · exact List.mem_cons_of_mem _ (ih h2)

/-- Every key of an updated dict is the updated key or an original
key. -/
lemma keys_of_dictInsert {α : Type} (k k' : String) (v : α)
    (l : List (String × α)) (h : ∃ w, (k', w) ∈ dictInsert k v l) :
    k' = k ∨ ∃ w, (k', w) ∈ l := by
  obtain ⟨w, hw⟩ := h
  rcases mem_dictInsert_elim _ _ _ _ hw with h2 | h2
  · left
    injection h2 with h3 h4
  · exact Or.inr ⟨w, h2⟩

/-! ## Claim C9: fetch loop lemmas -/

/-- The fetch loop gives every requested symbol exactly the oracle's
answer, and leaves unrequested keys untouched. -/
lemma fetch_foldl_lookup (oracle : String → Option PriceData)
    (symbols : List String) :
    ∀ (acc : List (String × Option PriceData)) (s : String),
      dictLookup s
          (List.foldl (fun r x => dictInsert x (oracle x) r) acc symbols)
        = if s ∈ symbols then some (oracle s) else dictLookup s acc := by
  induction symbols with
  | nil =>
    intro acc s
    simp
  | cons x xs ih =>
    intro acc s
    rw [List.foldl_cons, ih]
    by_cases h1 : s ∈ xs <;> by_cases h2 : s = x <;>
      simp [h1, h2, dictLookup_dictInsert, List.mem_cons]

/-- Every entry stored by the fetch loop carries the oracle's answer
for its own key. -/
lemma fetch_foldl_mem_val (oracle : String → Option PriceData)
    (symbols : List String) :
    ∀ (acc : List (String × Option PriceData)),
      (∀ p ∈ acc, p.2 = oracle p.1) →
      ∀ p ∈ List.foldl (fun r x => dictInsert x (oracle x) r) acc symbols,
        p.2 = oracle p.1 := by
  induction symbols with
  | nil =>
    intro acc h
    simpa using h
  | cons x xs ih =>
    intro acc h
    rw [List.foldl_cons]
    apply ih
    intro p hp
    rcases mem_dictInsert_elim _ _ _ _ hp with h2 | h2
    · simp [h2]
    · exact h p h2

/-! ## Claim C9: convert loop lemmas -/

/-- One convert step on a failed entry only appends the symbol to
`failed_ids`. -/
lemma convertStep_none (st : ConvState) (p : String × Option PriceData)
    (hp : p.2 = none) :
    convertStep st p = { st with failedIds := st.failedIds ++ [p.1] } := by
  simp [convertStep, hp]

/-- One convert step on a successful entry updates the two dicts and
keeps `failed_ids`. -/
lemma convertStep_some (st : ConvState) (p : String × Option PriceData)
    (data : PriceData) (hp : p.2 = some data) :
    convertStep st p =
      { results := dictInsert (cryptoSourceId p.1)
          [(mkCryptoTitle (cryptoShortName p.1) data,
            { ranks := [1], url := binanceTradeUrl p.1
            , mobileUrl := binanceTradeUrl p.1 })] st.results
      , idToName := dictInsert (cryptoSourceId p.1) (cryptoSourceName p.1)
          st.idToName
      , failedIds := st.failedIds } := by
  simp [convertStep, hp]

/-- The convert loop never drops an already-recorded failed id. -/
lemma convert_failed_mono (l : List (String × Option PriceData)) :
    ∀ (acc : ConvState) (s : String), s ∈ acc.failedIds →
      s ∈ (List.foldl convertStep acc l).failedIds := by
  induction l with
  | nil =>
    intro acc s h
    simpa using h
  | cons p rest ih =>
    intro acc s h
    rw [List.foldl_cons]
    apply ih
    cases hp : p.2 with
    | none =>
      rw [convertStep_none _ _ hp]
      exact List.mem_append_left _ h
    | some data =>
      rw [convertStep_some _ _ _ hp]
      exact h

/-- The convert loop never drops an existing results key. -/
lemma convert_results_keys_mono (l : List (String × Option PriceData)) :
    ∀ (acc : ConvState) (k : String), (∃ w, (k, w) ∈ acc.results) →
      ∃ w, (k, w) ∈ (List.foldl convertStep acc l).results := by
  induction l with
  | nil =>
    intro acc k h
    simpa using h
  | cons p rest ih =>
    intro acc k h
    rw [List.foldl_cons]
    apply ih
    cases hp : p.2 with
    | none =>
      rw [convertStep_none _ _ hp]
      exact h
    | some data =>
      rw [convertStep_some _ _ _ hp]
      exact keys_dictInsert_of_mem _ _ _ _ h

/-- The convert loop never drops an existing id-to-name key. -/
lemma convert_idToName_keys_mono (l : List (String × Option PriceData)) :
    ∀ (acc : ConvState) (k : String), (∃ w, (k, w) ∈ acc.idToName) →
      ∃ w, (k, w) ∈ (List.foldl convertStep acc l).idToName := by
  induction l with
  | nil =>
    intro acc k h
    simpa using h
  | cons p rest ih =>
    intro acc k h
    rw [List.foldl_cons]
    apply ih
    cases hp : p.2 with
    | none =>
      rw [convertStep_none _ _ hp]
      exact h
    | some data =>
      rw [convertStep_some _ _ _ hp]
      exact keys_dictInsert_of_mem _ _ _ _ h

/-- Every `None`-valued entry ends up in `failed_ids`. -/
lemma convert_failed_of_none (l : List (String × Option PriceData)) :
    ∀ (acc : ConvState) (s : String), (s, none) ∈ l →
      s ∈ (List.foldl convertStep acc l).failedIds := by
  induction l with
  | nil =>
    intro acc s h
    simp at h
  | cons p rest ih =>
    intro acc s h
    rw [List.foldl_cons]
    rcases List.mem_cons.mp h with h | h
    · subst h
      apply convert_failed_mono
      rw [convertStep_none _ _ rfl]
      simp
    · exact ih _ s h

/-- Every successful entry contributes its source id to both `results`
and `id_to_name`. -/
lemma convert_keys_of_some (l : List (String × Option PriceData)) :
    ∀ (acc : ConvState) (s : String) (d : PriceData), (s, some d) ∈ l →
      (∃ w, (cryptoSourceId s, w) ∈ (List.foldl convertStep acc l).results)
      ∧ ∃ w, (cryptoSourceId s, w) ∈
          (List.foldl convertStep acc l).idToName := by
  induction l with
  | nil =>
    intro acc s d h
    simp at h
  | cons p rest ih =>
    intro acc s d h
    rw [List.foldl_cons]
    rcases List.mem_cons.mp h with h | h
    · subst h
      constructor
      · apply convert_results_keys_mono
        rw [convertStep_some _ _ d rfl]
        exact keys_dictInsert_self _ _ _
      · apply convert_idToName_keys_mono
        rw [convertStep_some _ _ d rfl]
        exact keys_dictInsert_self _ _ _
    · exact ih _ s d h

/-- Every results key was put there by some successful entry: failed
entries contribute nothing to `results`. -/
lemma convert_results_provenance (l : List (String × Option PriceData)) :
    ∀ (acc : ConvState) (k : String),
      (∃ w, (k, w) ∈ (List.foldl convertStep acc l).results) →
      (∃ w, (k, w) ∈ acc.results)
      ∨ ∃ s d, (s, some d) ∈ l ∧ k = cryptoSourceId s := by
  induction l with
  | nil =>
    intro acc k h
    exact Or.inl (by simpa using h)
  | cons p rest ih =>
    intro acc k h
    rw [List.foldl_cons] at h
    rcases ih _ k h with h2 | ⟨s, d, hmem, hk⟩
    · cases hp : p.2 with
      | none =>
        rw [convertStep_none _ _ hp] at h2
        exact Or.inl h2
      | some data =>
        rw [convertStep_some _ _ _ hp] at h2
        rcases keys_of_dictInsert _ _ _ _ h2 with he | hin
        · refine Or.inr ⟨p.1, data, ?_, he⟩
          have hp2 : p = (p.1, some data) := Prod.ext_iff.mpr ⟨rfl, hp⟩
          rw [← hp2]
          exact List.mem_cons_self _ _
        · exact Or.inl hin
    · exact Or.inr ⟨s, d, List.mem_cons_of_mem _ hmem, hk⟩

/-- Every id-to-name key was put there by some successful entry. -/
lemma convert_idToName_provenance (l : List (String × Option PriceData)) :
    ∀ (acc : ConvState) (k : String),
      (∃ w, (k, w) ∈ (List.foldl convertStep acc l).idToName) →
      (∃ w, (k, w) ∈ acc.idToName)
      ∨ ∃ s d, (s, some d) ∈ l ∧ k = cryptoSourceId s := by
  induction l with
  | nil =>
    intro acc k h
    exact Or.inl (by simpa using h)
  | cons p rest ih =>
    intro acc k h
    rw [List.foldl_cons] at h
    rcases ih _ k h with h2 | ⟨s, d, hmem, hk⟩
    · cases hp : p.2 with
      | none =>
        rw [convertStep_none _ _ hp] at h2
        exact Or.inl h2
      | some data =>
        rw [convertStep_some _ _ _ hp] at h2
        rcases keys_of_dictInsert _ _ _ _ h2 with he | hin
        · refine Or.inr ⟨p.1, data, ?_, he⟩
          have hp2 : p = (p.1, some data) := Prod.ext_iff.mpr ⟨rfl, hp⟩
          rw [← hp2]
          exact List.mem_cons_self _ _
        · exact Or.inl hin
    · exact Or.inr ⟨s, d, List.mem_cons_of_mem _ hmem, hk⟩

/-- Every results value stored by the convert loop is a single-title
dict. -/
lemma convert_singleton (l : List (String × Option PriceData)) :
    ∀ (acc : ConvState), (∀ p ∈ acc.results, p.2.length = 1) →
      ∀ p ∈ (List.foldl convertStep acc l).results, p.2.length = 1 := by
  induction l with
  | nil =>
    intro acc h
    simpa using h
  | cons q rest ih =>
    intro acc h
    rw [List.foldl_cons]
    apply ih
    intro p hp
    cases hq : q.2 with
    | none =>
      rw [convertStep_none _ _ hq] at hp
      exact h p hp
    | some data =>
      rw [convertStep_some _ _ _ hq] at hp
      rcases mem_dictInsert_elim _ _ _ _ hp with h2 | h2
      · simp [h2]
      · exact h p h2

/-! ## Claim C9: main theorem -/

/-- Claim C9: `fetch_ticker_24h` returns one entry per requested symbol,
mapping each failed symbol to `None` without raising and without
aborting the rest (the loop is total and every symbol's entry is
present with exactly the oracle's answer); `convert_to_news_format`
then partitions: every failed symbol lands in `failed_ids` while
contributing nothing to `results` or `id_to_name` (every key of those
dicts stems from a successful symbol), and every successful symbol's
source id appears in both `results` (whose every entry holds exactly
one title) and `id_to_name`. -/
theorem c9_crypto_fetch_partition (oracle : String → Option PriceData)
    (symbols : List String) :
    (∀ s, s ∈ symbols →
      dictLookup s (fetchTicker24h oracle symbols) = some (oracle s))
    ∧ (∀ p, p ∈ fetchTicker24h oracle symbols → p.2 = oracle p.1)
    ∧ (∀ s, s ∈ symbols → oracle s = none →
        s ∈ (convertToNewsFormat (fetchTicker24h oracle symbols)).failedIds)
    ∧ (∀ s d, s ∈ symbols → oracle s = some d →
        (∃ w, (cryptoSourceId s, w) ∈
          (convertToNewsFormat (fetchTicker24h oracle symbols)).results)
        ∧ ∃ w, (cryptoSourceId s, w) ∈
            (convertToNewsFormat (fetchTicker24h oracle symbols)).idToName)
    ∧ (∀ k, (∃ w, (k, w) ∈
          (convertToNewsFormat (fetchTicker24h oracle symbols)).results) →
        ∃ s d, (s, some d) ∈ fetchTicker24h oracle symbols
          ∧ oracle s = some d ∧ k = cryptoSourceId s)
    ∧ (∀ k, (∃ w, (k, w) ∈
          (convertToNewsFormat (fetchTicker24h oracle symbols)).idToName) →
        ∃ s d, (s, some d) ∈ fetchTicker24h oracle symbols
          ∧ oracle s = some d ∧ k = cryptoSourceId s)
    ∧ (∀ p, p ∈ (convertToNewsFormat (fetchTicker24h oracle symbols)).results →
        p.2.length = 1) := by
  have hlookup : ∀ s, s ∈ symbols →
      dictLookup s (fetchTicker24h oracle symbols) = some (oracle s) := by
    intro s hs
    unfold fetchTicker24h
    rw [fetch_foldl_lookup oracle symbols [] s, if_pos hs]
  have hval : ∀ p, p ∈ fetchTicker24h oracle symbols → p.2 = oracle p.1 := by
    intro p hp
    unfold fetchTicker24h at hp
    exact fetch_foldl_mem_val oracle symbols [] (by simp) p hp
  refine ⟨hlookup, hval, ?_, ?_, ?_, ?_, ?_⟩
  · intro s hs ho
    apply convert_failed_of_none
    have h2 := mem_of_dictLookup s (oracle s) _ (hlookup s hs)
    rw [ho] at h2
    exact h2
  · intro s d hs ho
    apply convert_keys_of_some
    have h2 := mem_of_dictLookup s (oracle s) _ (hlookup s hs)
    rw [ho] at h2
    exact h2
  · intro k hk
    rcases convert_results_provenance _ _ k hk with h2 | ⟨s, d, hmem, he⟩
    · simp at h2
    · exact ⟨s, d, hmem, by rw [← hval (s, some d) hmem], he⟩
  · intro k hk
    rcases convert_idToName_provenance _ _ k hk with h2 | ⟨s, d, hmem, he⟩
    · simp at h2
    · exact ⟨s, d, hmem, by rw [← hval (s, some d) hmem], he⟩
  · intro p hp
    exact convert_singleton _ _ (by simp) p hp

/-- Concrete oracle for the claim C9 witness: BTC succeeds, every other
symbol fails. -/
def oracleBtcOnly (s : String) : Option PriceData :=
  if s = "BTCUSDT" then
    some { price := 50000, change_24h := 2, volume_24h := 100
         , high_24h := 51000, low_24h := 49000 }
  else none

/-- Witness for claim C9 at a concrete two-symbol fetch where one
symbol fails: the failed symbol is present in the returned map with
value `None` and lands in `failed_ids`, while the successful symbol's
source id appears in `results`. -/
theorem c9_crypto_fetch_partition_witness :
    dictLookup "FOOUSDT" (fetchTicker24h oracleBtcOnly ["BTCUSDT", "FOOUSDT"])
        = some none
    ∧ "FOOUSDT" ∈
        (convertToNewsFormat
          (fetchTicker24h oracleBtcOnly ["BTCUSDT", "FOOUSDT"])).failedIds
    ∧ ∃ w, ("crypto_btc", w) ∈
        (convertToNewsFormat
          (fetchTicker24h oracleBtcOnly ["BTCUSDT", "FOOUSDT"])).results := by
  have h := c9_crypto_fetch_partition oracleBtcOnly ["BTCUSDT", "FOOUSDT"]
  refine ⟨?_, ?_, ?_⟩
  · have h2 := h.1 "FOOUSDT" (by decide)
    rw [h2]
    decide
  · exact h.2.2.1 "FOOUSDT" (by decide) (by decide)
  · exact (h.2.2.2.1 "BTCUSDT"
      { price := 50000, change_24h := 2, volume_24h := 100
      , high_24h := 51000, low_24h := 49000 } (by decide) (by decide)).1

/-! ## Claim C10 -/

/-- Claim C10 (amended): `check_version_update` never raises — the
embedding is total and any fetch failure yields `(False, None)`; on a
successful fetch it reports an update exactly when the current
version's parsed triple is lexicographically below the stripped remote
text's parsed triple (any string without three int-parsable dot-parts
parsing as `(0, 0, 0)`), returning the stripped remote version exactly
on an update; and a malformed remote version never triggers an update
report provided the current version does not parse below `(0, 0, 0)`.
(The amendment adds that proviso: Python's `int` accepts signed parts,
so a current version such as `"0.0.-1"` parses below `(0, 0, 0)` and a
malformed remote then does trigger an update.) -/
theorem c10_version_check_behaviour :
    (∀ c, checkVersionUpdate c none = (false, none))
    ∧ (∀ c t, (checkVersionUpdate c (some t)).1 = true
        ↔ specVersionLt (parseVersion c) (parseVersion (pyStrip t)))
    ∧ (∀ c t, (checkVersionUpdate c (some t)).2 =
        if (checkVersionUpdate c (some t)).1 then some (pyStrip t) else none)
    ∧ (∀ c t, parseVersion (pyStrip t) = (0, 0, 0) →
        versionLt (parseVersion c) (0, 0, 0) = false →
        checkVersionUpdate c (some t) = (false, none)) := by
  refine ⟨fun c => rfl, ?_, ?_, ?_⟩
  · intro c t
    simp only [checkVersionUpdate]
    exact versionLt_iff_specVersionLt _ _
  · intro c t
    simp only [checkVersionUpdate]
  · intro c t hrem hlt
    show (versionLt (parseVersion c) (parseVersion (pyStrip t)),
      if versionLt (parseVersion c) (parseVersion (pyStrip t)) = true
      then some (pyStrip t) else none) = (false, none)
    rw [hrem, hlt]
    rfl

/-- Counterexample to claim C10 as frozen: the remote text `"invalid"`
is malformed (it parses to `(0, 0, 0)`), yet with current version
`"0.0.-1"` — whose third part Python's `int` parses as `-1` — the
comparison `(0, 0, -1) < (0, 0, 0)` holds and an update is reported. -/
theorem c10_counterexample :
    parseVersion "invalid" = (0, 0, 0)
    ∧ parseVersion "0.0.-1" = (0, 0, -1)
    ∧ checkVersionUpdate "0.0.-1" (some "invalid") = (true, some "invalid") := by
  refine ⟨by decide, by decide, by decide⟩

/-- Witness for the amended claim C10 at a concrete input: a
well-formed current version and a malformed remote produce no update
report. -/
theorem c10_version_check_behaviour_witness :
    checkVersionUpdate "1.0.0" (some "junk") = (false, none) :=
  c10_version_check_behaviour.2.2.2 "1.0.0" "junk" (by decide) (by decide)

end TrendRadar
